import Mathlib

/-!
Verification development for a small Flask HTTP gateway over MongoDB
(`src/app.py` of the `tlbk-api` repository).

The embedding strategy:

* JSON values (request bodies, filters, pipelines, documents) are the
  inductive type `JVal`.
* The MongoDB driver is the external collaborator; it is embedded as the
  structure `Database` whose operations are fallible (`Except String`),
  mirroring the pymongo calls made in `app.py` (`find_one`, `find` with
  cursor options, `aggregate`, `count_documents`, `command('ping')`).
* A concrete reference model of the driver, `MongoModel`, implements the
  filter shapes the gateway actually issues (empty filter, field equality,
  `$regex` with `$options: "i"` read as case-insensitive substring match)
  over collections stored as lists of documents in natural order; a pymongo
  cursor's `skip`/`limit`/`sort` options are evaluated server-side as
  sort, then skip, then limit.
* Each Flask route handler is translated statement by statement; its
  `try:` body becomes an `Except String Resp` computation (`find_oneE`,
  `findE`, ...) and the `except Exception` clause becomes `catchResp`,
  producing the `(json_body, http_status)` pair `Resp`.
* Python-level dynamic operations that the handlers perform on decoded
  JSON (`data.get`, `d[k]`, `k in d`, `len`, truthiness) are embedded as
  fallible helpers whose error cases mirror the exceptions Python raises.
-/

/-- JSON values: the payloads exchanged by the gateway. Numbers are modelled
as integers (the requests exercised by the spec only use integral numbers). -/
inductive JVal where
  | null
  | bool (b : Bool)
  | num (n : Int)
  | str (s : String)
  | arr (xs : List JVal)
  | obj (kvs : List (String × JVal))
deriving Repr

mutual

/-- Structural equality of JSON values (Python `==` on decoded JSON). -/
def jEq : JVal → JVal → Bool
  | .null, .null => true
  | .bool a, .bool b => a == b
  | .num a, .num b => a == b
  | .str a, .str b => a == b
  | .arr xs, .arr ys => jEqArr xs ys
  | .obj xs, .obj ys => jEqObj xs ys
  | _, _ => false

/-- Elementwise equality of JSON arrays. -/
def jEqArr : List JVal → List JVal → Bool
  | [], [] => true
  | x :: xs, y :: ys => jEq x y && jEqArr xs ys
  | _, _ => false

/-- Pairwise equality of JSON objects (as ordered key/value lists). -/
def jEqObj : List (String × JVal) → List (String × JVal) → Bool
  | [], [] => true
  | (k, v) :: xs, (l, w) :: ys => k == l && jEq v w && jEqObj xs ys
  | _, _ => false

end

/-- Key lookup in a JSON object's field list (Python `dict` access; decoded
JSON objects have unique keys). -/
def lookupKey (k : String) : List (String × JVal) → Option JVal
  | [] => none
  | (k2, v) :: rest => if k2 = k then some v else lookupKey k rest

/-- Python truthiness of a decoded JSON value (`if x:`). -/
def jTruthy : JVal → Bool
  | .null => false
  | .bool b => b
  | .num n => n != 0
  | .str s => !s.isEmpty
  | .arr xs => !xs.isEmpty
  | .obj kvs => !kvs.isEmpty

/-- Python `data.get(key, default)`: succeeds on objects, raises
`AttributeError` on any other JSON value (as `dict.get` would). -/
def dictGet (data : JVal) (k : String) (dflt : JVal) : Except String JVal :=
  match data with
  | .obj kvs => .ok ((lookupKey k kvs).getD dflt)
  | _ => .error "AttributeError: object has no attribute get"

/-- pymongo collection names must be strings: `db[name]` with a non-string
raises. -/
def asStr : JVal → Except String String
  | .str s => .ok s
  | _ => .error "TypeError: collection name must be an instance of str"

/-- pymongo `cursor.skip`/`cursor.limit` accept ints (Python `bool` is an
`int`); anything else raises `TypeError`. -/
def asInt : JVal → Except String Int
  | .num n => .ok n
  | .bool b => .ok (if b then 1 else 0)
  | _ => .error "TypeError: value must be an instance of int"

/-- Python `len` on a decoded JSON value. -/
def pyLen : JVal → Except String Nat
  | .arr xs => .ok xs.length
  | .obj kvs => .ok kvs.length
  | .str s => .ok s.length
  | _ => .error "TypeError: object has no len"

/-- Contiguous-occurrence test: does `pat` occur inside `l`? -/
def occursIn (pat : List Char) : List Char → Bool
  | [] => pat.isEmpty
  | c :: rest => pat.isPrefixOf (c :: rest) || occursIn pat rest

/-- Case-sensitive substring test on strings. -/
def strContainsSub (pat s : String) : Bool :=
  occursIn pat.toList s.toList

/-- Case-insensitive substring test: the semantics of the MongoDB filter
`{field: {"$regex": pat, "$options": "i"}}` for the plain (metacharacter
free) patterns this gateway relays. -/
def strContainsCI (pat s : String) : Bool :=
  occursIn (pat.toList.map Char.toLower) (s.toList.map Char.toLower)

/-- Python `pipeline[0]`. -/
def pyIndex0 : JVal → Except String JVal
  | .arr (x :: _) => .ok x
  | .arr [] => .error "IndexError: list index out of range"
  | .str s =>
      match s.toList with
      | c :: _ => .ok (.str (String.mk [c]))
      | [] => .error "IndexError: string index out of range"
  | .obj _ => .error "KeyError: 0"
  | _ => .error "TypeError: object is not subscriptable"

/-- Python `k in v` for a string key `k` (dict key membership, list
membership, substring on strings; `TypeError` otherwise). -/
def pyIn (k : String) : JVal → Except String Bool
  | .obj kvs => .ok (lookupKey k kvs).isSome
  | .arr xs => .ok (xs.any (fun x => jEq x (.str k)))
  | .str s => .ok (strContainsSub k s)
  | _ => .error "TypeError: argument is not iterable"

/-- Python `v[k]` for string key `k`: dict item access. -/
def pyGetItem (v : JVal) (k : String) : Except String JVal :=
  match v with
  | .obj kvs =>
      match lookupKey k kvs with
      | some x => .ok x
      | none => .error ("KeyError: " ++ k)
  | _ => .error "TypeError: object is not subscriptable"

/-- `json.loads(json_util.dumps(data))`: re-encoding of a document to
transport JSON. On the plain JSON values of this model (no BSON extended
types) the round-trip is the identity. -/
def parse_json (v : JVal) : JVal := v

/-- An HTTP response: JSON body plus status code (`jsonify` defaults
to 200). -/
abbrev Resp := JVal × Nat

/-- The `except Exception as e: return jsonify(error=str(e)), 500` boundary
shared by every data handler. -/
def catchResp (r : Except String Resp) : Resp :=
  match r with
  | .ok resp => resp
  | .error e => (.obj [("error", .str e)], 500)

/-- The MongoDB driver interface as used by `app.py`: one named database
handle offering the four query operations plus the liveness probe. Every
operation may raise (network faults, invalid arguments, server errors). -/
structure Database where
  command_ping : Except String Unit
  find_one : String → JVal → Except String JVal
  find : String → JVal → Nat → Int → Option JVal → Except String (List JVal)
  aggregate : String → JVal → Except String (List JVal)
  count_documents : String → JVal → Except String Nat

/-- Field access in a stored document. -/
def fieldGet (doc : JVal) (k : String) : Option JVal :=
  match doc with
  | .obj kvs => lookupKey k kvs
  | _ => none

/-- MongoDB equality condition `{k: v}`: the document's field equals `v`;
a missing field matches only `null`. -/
def eqMatch (doc : JVal) (k : String) (v : JVal) : Bool :=
  match fieldGet doc k with
  | some w => jEq w v
  | none => jEq v .null

/-- One filter condition `{k: v}` of a query document. A value carrying a
`$regex` operator is a (substring) regex condition, case-insensitive when
`$options` contains an `i`; any other value is an equality condition. -/
def condMatches (doc : JVal) (k : String) (v : JVal) : Bool :=
  match v with
  | .obj ops =>
      match lookupKey "$regex" ops with
      | some (.str pat) =>
          (match fieldGet doc k with
           | some (.str s) =>
               (match lookupKey "$options" ops with
                | some (.str o) =>
                    if o.toList.contains 'i' then strContainsCI pat s
                    else strContainsSub pat s
                | _ => strContainsSub pat s)
           | _ => false)
      | some _ => false
      | none => eqMatch doc k v
  | _ => eqMatch doc k v

/-- A document matches a filter when it satisfies every condition; the empty
filter matches everything. Non-object filters never match (they are rejected
before evaluation, see `filterSupported`). -/
def docMatches (doc : JVal) (filter : JVal) : Bool :=
  match filter with
  | .obj kvs => kvs.all (fun kv => condMatches doc kv.1 kv.2)
  | _ => false

/-- Server-side validation of a filter document: it must be an object, and
every `$regex` operand must be a string (a non-string `$regex` is a server
error). -/
def filterSupported (filter : JVal) : Bool :=
  match filter with
  | .obj kvs =>
      kvs.all (fun kv =>
        match kv.2 with
        | .obj ops =>
            match lookupKey "$regex" ops with
            | some (.str _) => true
            | some _ => false
            | none => true
        | _ => true)
  | _ => false

/-- Reference model of the MongoDB server reached through the driver:
named collections of documents in natural order, an (opaque) sort
procedure for cursor sort specifications, and an (opaque) generic
aggregation procedure. -/
structure MongoModel where
  colls : String → List JVal
  sortFn : JVal → List JVal → List JVal
  aggFn : String → JVal → Except String (List JVal)

/-- The documents of a collection matching a filter, in natural order. -/
def MongoModel.findDocs (m : MongoModel) (c : String) (filter : JVal) :
    Except String (List JVal) :=
  if filterSupported filter then
    .ok ((m.colls c).filter (fun d => docMatches d filter))
  else .error "OperationFailure: unsupported filter document"

/-- The driver handle over the reference model. `find` evaluates a cursor's
options the way the server does: sort first, then skip, then limit (a limit
of 0 means unlimited; a negative limit caps at its absolute value). -/
def MongoModel.db (m : MongoModel) : Database where
  command_ping := .ok ()
  find_one := fun c f => (m.findDocs c f).map (fun l => l.headD .null)
  find := fun c f skip limit sort =>
    (m.findDocs c f).map (fun l =>
      let l1 := match sort with
        | some s => m.sortFn s l
        | none => l
      let l2 := l1.drop skip
      if limit = 0 then l2 else l2.take limit.natAbs)
  aggregate := m.aggFn
  count_documents := fun c f => (m.findDocs c f).map List.length

/-!
## Route handlers (`app.py` lines 69-228)

Each handler receives the outcome of its `get_db()` call (`gdb`) and, for
POST routes, the outcome of `request.get_json()` (`body`); both can raise,
and in the source both happen inside the handler's `try:` block.
-/

/-- Body of `get_categories` (`app.py` 90-106) inside its `try:`. -/
def get_categoriesE (gdb : Except String Database) : Except String Resp := do
  let db ← gdb
  let result ← db.find_one "custom-orders" (.obj [("spec_id", .str "categories")])
  if jTruthy result then
    pure (.obj [("document", parse_json result)], 200)
  else
    pure (.obj [("document", .null)], 404)

/-- `GET /api/categories`. -/
def get_categories (gdb : Except String Database) : Resp :=
  catchResp (get_categoriesE gdb)

/-- Body of `find_one` (`app.py` 108-128) inside its `try:`. -/
def find_oneE (gdb : Except String Database) (body : Except String JVal) :
    Except String Resp := do
  let db ← gdb
  let data ← body
  let collV ← dictGet data "collection" (.str "custom-orders")
  let filterV ← dictGet data "filter" (.obj [])
  let collName ← asStr collV
  let result ← db.find_one collName filterV
  if jTruthy result then
    pure (.obj [("document", parse_json result)], 200)
  else
    pure (.obj [("document", .null)], 404)

/-- `POST /api/findOne`. -/
def find_one (gdb : Except String Database) (body : Except String JVal) : Resp :=
  catchResp (find_oneE gdb body)

/-- Body of `find` (`app.py` 130-159) inside its `try:`: extract
`collection`, `filter`, `limit` (default 0), `skip` (default 0), `sort`
(default `None`), then set each cursor option only when its value is
truthy (so `skip=0`, `limit=0`, `sort=None` are not applied), then run the
cursor. -/
def findE (gdb : Except String Database) (body : Except String JVal) :
    Except String Resp := do
  let db ← gdb
  let data ← body
  let collV ← dictGet data "collection" (.str "custom-orders")
  let filterV ← dictGet data "filter" (.obj [])
  let limitV ← dictGet data "limit" (.num 0)
  let skipV ← dictGet data "skip" (.num 0)
  let sortV ← dictGet data "sort" .null
  let collName ← asStr collV
  let skipN ←
    if jTruthy skipV then do
      let n ← asInt skipV
      if n < 0 then Except.error "ValueError: skip must be an int no less than 0"
      else pure n.toNat
    else pure 0
  let limitN ←
    if jTruthy limitV then asInt limitV
    else pure 0
  let sortO := if jTruthy sortV then some sortV else none
  let results ← db.find collName filterV skipN limitN sortO
  pure (.obj [("documents", .arr (results.map parse_json))], 200)

/-- `POST /api/find`. -/
def find (gdb : Except String Database) (body : Except String JVal) : Resp :=
  catchResp (findE gdb body)

/-- The condition of `app.py` line 173:
`pipeline and len(pipeline) > 0 and '$search' in pipeline[0]`. -/
def condSearch (p : JVal) : Except String Bool :=
  if jTruthy p then do
    let n ← pyLen p
    if 0 < n then do
      let st ← pyIndex0 p
      pyIn "$search" st
    else pure false
  else pure false

/-- The regex fallback filter built at `app.py` 183-185 and 192-194. -/
def regexFilter (path : String) (queryV : JVal) : JVal :=
  .obj [(path, .obj [("$regex", queryV), ("$options", .str "i")])]

/-- Body of `aggregate` (`app.py` 161-209) inside its `try:`: when the
first pipeline stage carries `$search` with an `autocomplete` (or, failing
that, a `text`) sub-operator, substitute a case-insensitive regex `find`
capped at 24 results for the whole pipeline; otherwise run the pipeline
as-is. -/
def aggregateE (gdb : Except String Database) (body : Except String JVal) :
    Except String Resp := do
  let db ← gdb
  let data ← body
  let collV ← dictGet data "collection" (.str "custom-orders")
  let pipeline ← dictGet data "pipeline" (.arr [])
  let collName ← asStr collV
  let isSearch ← condSearch pipeline
  if isSearch then do
    let st ← pyIndex0 pipeline
    let searchStage ← pyGetItem st "$search"
    let hasAuto ← pyIn "autocomplete" searchStage
    if hasAuto then do
      let sub ← pyGetItem searchStage "autocomplete"
      let queryV ← pyGetItem sub "query"
      let pathV ← pyGetItem sub "path"
      let path ← asStr pathV
      let results ← db.find collName (regexFilter path queryV) 0 24 none
      pure (.obj [("documents", .arr (results.map parse_json))], 200)
    else do
      let hasText ← pyIn "text" searchStage
      if hasText then do
        let sub ← pyGetItem searchStage "text"
        let queryV ← pyGetItem sub "query"
        let pathV ← pyGetItem sub "path"
        let path ← asStr pathV
        let results ← db.find collName (regexFilter path queryV) 0 24 none
        pure (.obj [("documents", .arr (results.map parse_json))], 200)
      else do
        let results ← db.aggregate collName pipeline
        pure (.obj [("documents", .arr (results.map parse_json))], 200)
  else do
    let results ← db.aggregate collName pipeline
    pure (.obj [("documents", .arr (results.map parse_json))], 200)

/-- `POST /api/aggregate`. -/
def aggregate (gdb : Except String Database) (body : Except String JVal) : Resp :=
  catchResp (aggregateE gdb body)

/-- Body of `count` (`app.py` 211-228) inside its `try:`. -/
def countE (gdb : Except String Database) (body : Except String JVal) :
    Except String Resp := do
  let db ← gdb
  let data ← body
  let collV ← dictGet data "collection" (.str "custom-orders")
  let filterV ← dictGet data "filter" (.obj [])
  let collName ← asStr collV
  let n ← db.count_documents collName filterV
  pure (.obj [("count", .num (Int.ofNat n))], 200)

/-- `POST /api/count`. -/
def count (gdb : Except String Database) (body : Except String JVal) : Resp :=
  catchResp (countE gdb body)

/-- `GET /health` (`app.py` 69-88): build the health report, probing the
database; on any exception report unhealthy/disconnected with the error
message and status 503, otherwise connected with the configured database
name and status 200. -/
def health (gdb : Except String Database) (databaseName : String) : Resp :=
  match (do let db ← gdb; db.command_ping) with
  | .ok _ =>
      (.obj [("status", .str "healthy"), ("api", .str "running"),
             ("database", .str "connected"),
             ("database_name", .str databaseName)], 200)
  | .error e =>
      (.obj [("status", .str "unhealthy"), ("api", .str "running"),
             ("database", .str "disconnected"), ("error", .str e)], 503)

/-!
## Connection lifecycle (`app.py` 21-49)
-/

/-- The unfilled template value the README ships in `.env`. -/
def placeholder_uri : String :=
  "mongodb+srv://<username>:<password>@cluster.mongodb.net/"

/-- Message of the `ValueError` raised when `MONGODB_URI` is unset/empty. -/
def msg_uri_missing : String :=
  "MONGODB_URI environment variable is not set. Please create a .env file with your MongoDB connection string."

/-- Message of the `ValueError` raised when `MONGODB_URI` is the template. -/
def msg_uri_placeholder : String :=
  "Please update MONGODB_URI in your .env file with your actual MongoDB connection string."

/-- Python falsiness of the `MONGODB_URI` environment value (`not
MONGODB_URI`): unset, or set to the empty string. -/
def uriFalsy : Option String → Bool
  | none => true
  | some s => s.isEmpty

/-- `get_db` (`app.py` 29-49). State passing replaces the module-global
`_db`: the argument `cachedDb` is the global's value on entry, the second
component of the result is its value on return. `connect` is the outcome
the environment gives to `MongoClient(MONGODB_URI)` + `ping` +
`client[DATABASE_NAME]`: the ready database handle, or the failure cause. -/
def get_db (uri : Option String) (connect : Except String Database)
    (cachedDb : Option Database) : Except String Database × Option Database :=
  match cachedDb with
  | some db => (.ok db, some db)
  | none =>
      if uriFalsy uri then (.error msg_uri_missing, none)
      else if uri = some placeholder_uri then (.error msg_uri_placeholder, none)
      else
        match connect with
        | .ok db => (.ok db, some db)
        | .error e => (.error ("Failed to connect to MongoDB: " ++ e), none)

/-- One full `POST /api/findOne` request at the application level: run
`get_db` against the current cached handle, then the handler; return the
response together with the cached handle after the request. -/
def app_find_one (uri : Option String) (connect : Except String Database)
    (cachedDb : Option Database) (body : Except String JVal) :
    Resp × Option Database :=
  let s := get_db uri connect cachedDb
  (find_one s.1 body, s.2)

/-- One full `POST /api/aggregate` request at the application level. -/
def app_aggregate (uri : Option String) (connect : Except String Database)
    (cachedDb : Option Database) (body : Except String JVal) :
    Resp × Option Database :=
  let s := get_db uri connect cachedDb
  (aggregate s.1 body, s.2)

/-!
## Helper lemmas
-/

theorem ebind_ok {α β : Type} (a : α) (f : α → Except String β) :
    (Except.ok a >>= f : Except String β) = f a := rfl

theorem ebind_err {α β : Type} (e : String) (f : α → Except String β) :
    (Except.error e >>= f : Except String β) = Except.error e := rfl

theorem epure_eq {α : Type} (a : α) :
    (pure a : Except String α) = Except.ok a := rfl

theorem parse_json_map (l : List JVal) : l.map parse_json = l := by
  induction l with
  | nil => rfl
  | cons x xs ih => simp [parse_json, ih]

/-- Sample collection used by the witness theorems: four bakery documents,
two of which carry a name containing "cake" case-insensitively. -/
def wDocs : List JVal :=
  [.obj [("name", .str "Chocolate Cake"), ("n", .num 1)],
   .obj [("name", .str "Bread"), ("n", .num 2)],
   .obj [("name", .str "cupCAKE tower"), ("n", .num 3)],
   .obj [("name", .str "Pie"), ("n", .num 4)]]

/-- Sample server model used by the witness theorems. -/
def wModel : MongoModel where
  colls := fun c => if c = "custom-orders" then wDocs else []
  sortFn := fun _ l => l.reverse
  aggFn := fun _ _ => .ok []

/-- The spec's description of the search fallback's result predicate: the
named field of the document case-insensitively contains the query string
as a substring. -/
def specFieldContainsCI (path q : String) (d : JVal) : Bool :=
  match fieldGet d path with
  | some (.str s) => strContainsCI q s
  | _ => false

/-- The filter the fallback builds matches a document exactly when the
spec's predicate holds of it. -/
theorem docMatches_regexFilter (path q : String) (d : JVal) :
    docMatches d (regexFilter path (.str q)) = specFieldContainsCI path q d := by
  cases h : fieldGet d path with
  | none =>
      simp [docMatches, regexFilter, condMatches, specFieldContainsCI, lookupKey, h]
  | some v =>
      cases v <;>
        simp [docMatches, regexFilter, condMatches, specFieldContainsCI, lookupKey, h]

theorem emap_ok {α β : Type} (f : α → β) (a : α) :
    (Except.map f (Except.ok a) : Except String β) = Except.ok (f a) := rfl

theorem filterSupported_regexFilter (path q : String) :
    filterSupported (regexFilter path (.str q)) = true := by
  simp [filterSupported, regexFilter, lookupKey]

/-- Claim C1: a POST to `/api/aggregate` whose pipeline's first stage
carries `$search` with sub-operator `autocomplete` (or `text`) returns
exactly the documents of the target collection whose `path` field
case-insensitively contains the query as a substring, capped at 24 results,
with every pipeline stage after the first (`rest`, arbitrary) discarded. -/
theorem C1_aggregate_search_fallback (m : MongoModel) (coll q path : String)
    (rest : List JVal) :
    (aggregate (.ok m.db)
      (.ok (.obj [("collection", .str coll),
        ("pipeline", .arr (.obj [("$search", .obj [("autocomplete",
          .obj [("query", .str q), ("path", .str path)])])] :: rest))])) =
      (.obj [("documents", .arr
        (((m.colls coll).filter (specFieldContainsCI path q)).take 24))], 200)) ∧
    (aggregate (.ok m.db)
      (.ok (.obj [("collection", .str coll),
        ("pipeline", .arr (.obj [("$search", .obj [("text",
          .obj [("query", .str q), ("path", .str path)])])] :: rest))])) =
      (.obj [("documents", .arr
        (((m.colls coll).filter (specFieldContainsCI path q)).take 24))], 200)) := by
  constructor <;>
    simp [aggregate, aggregateE, ebind_ok, epure_eq, emap_ok, dictGet, lookupKey,
      asStr, condSearch, jTruthy, pyLen, pyIndex0, pyIn, pyGetItem, Nat.succ_pos,
      MongoModel.db, MongoModel.findDocs, filterSupported_regexFilter,
      docMatches_regexFilter, parse_json_map, catchResp, strContainsSub]

/-- Claim C2: a POST to `/api/aggregate` whose pipeline's first stage lacks
a `$search` key, or whose `$search` stage has neither an `autocomplete` nor
a `text` sub-operator, executes the caller's full pipeline unmodified as a
generic aggregation and returns its unmodified result set. -/
theorem C2_aggregate_generic_passthrough (db : Database) (coll : String)
    (kvs : List (String × JVal)) (rest docs : List JVal)
    (h : db.aggregate coll (.arr (.obj kvs :: rest)) = .ok docs)
    (hsearch : lookupKey "$search" kvs = none ∨
      ∃ sub, lookupKey "$search" kvs = some (.obj sub) ∧
        lookupKey "autocomplete" sub = none ∧ lookupKey "text" sub = none) :
    aggregate (.ok db) (.ok (.obj [("collection", .str coll),
      ("pipeline", .arr (.obj kvs :: rest))])) =
    (.obj [("documents", .arr docs)], 200) := by
  rcases hsearch with hA | ⟨sub, hS, hAuto, hText⟩
  · simp [aggregate, aggregateE, ebind_ok, epure_eq, dictGet, lookupKey, asStr,
      condSearch, jTruthy, pyLen, pyIndex0, pyIn, Nat.succ_pos, hA, h,
      parse_json_map, catchResp]
  · simp [aggregate, aggregateE, ebind_ok, epure_eq, dictGet, lookupKey, asStr,
      condSearch, jTruthy, pyLen, pyIndex0, pyIn, pyGetItem, Nat.succ_pos,
      hS, hAuto, hText, h, parse_json_map, catchResp]

/-- Witness for C2: a one-stage `$match` pipeline (no `$search` key) against
the sample model is passed through unchanged. -/
theorem C2_witness :
    wModel.db.aggregate "custom-orders" (.arr [.obj [("$match", .obj [])]]) =
        .ok [] ∧
    lookupKey "$search" [("$match", (.obj [] : JVal))] = none ∧
    aggregate (.ok wModel.db) (.ok (.obj [("collection", .str "custom-orders"),
      ("pipeline", .arr [.obj [("$match", .obj [])]])])) =
    (.obj [("documents", .arr [])], 200) :=
  ⟨rfl, rfl,
    C2_aggregate_generic_passthrough wModel.db "custom-orders"
      [("$match", .obj [])] [] [] rfl (Or.inl rfl)⟩

/-- A filtered list under the empty filter is the whole list. -/
theorem filter_docMatches_empty (l : List JVal) :
    l.filter (fun d => docMatches d (.obj [])) = l := by
  induction l with
  | nil => rfl
  | cons x xs ih => simp [docMatches, ih]

/-- Dropping one element and taking two yields the 2nd and 3rd elements of a
list of length at least 4. -/
theorem take_two_tail {α : Type} (l : List α) (h : 3 < l.length) :
    l.tail.take 2 = [l.get ⟨1, by omega⟩, l.get ⟨2, by omega⟩] := by
  cases l with
  | nil => simp at h
  | cons a l1 =>
      cases l1 with
      | nil => simp at h
      | cons b l2 =>
          cases l2 with
          | nil => simp at h
          | cons c t => rfl

/-- Claim C3: `/api/find` with `limit=2, skip=1` on a collection of more
than three documents returns exactly the documents ranked 2nd and 3rd by
natural order; with a (truthy) `sort` specification it returns the 2nd and
3rd documents of the sorted order, honoring skip-before-limit. -/
theorem C3_find_skip_limit (m : MongoModel) (coll : String)
    (h : 3 < (m.colls coll).length) :
    (find (.ok m.db) (.ok (.obj [("collection", .str coll),
      ("limit", .num 2), ("skip", .num 1)])) =
      (.obj [("documents", .arr [(m.colls coll).get ⟨1, by omega⟩,
        (m.colls coll).get ⟨2, by omega⟩])], 200)) ∧
    (∀ s : JVal, jTruthy s = true →
      find (.ok m.db) (.ok (.obj [("collection", .str coll),
        ("limit", .num 2), ("skip", .num 1), ("sort", s)])) =
      (.obj [("documents", .arr
        (((m.sortFn s (m.colls coll)).drop 1).take 2))], 200)) := by
  constructor
  · simp [find, findE, ebind_ok, epure_eq, emap_ok, dictGet, lookupKey,
      asStr, asInt, jTruthy, MongoModel.db, MongoModel.findDocs,
      filterSupported, filter_docMatches_empty, parse_json_map, catchResp,
      take_two_tail _ h]
  · intro s hs
    simp only [jTruthy] at hs
    simp [find, findE, ebind_ok, epure_eq, emap_ok, dictGet, lookupKey, asStr,
      asInt, jTruthy, hs, MongoModel.db, MongoModel.findDocs, filterSupported,
      filter_docMatches_empty, parse_json_map, catchResp]

/-- Witness for C3: the four-document sample collection, with and without a
sort specification. -/
theorem C3_witness :
    3 < (wModel.colls "custom-orders").length ∧
    jTruthy (.str "name") = true ∧
    find (.ok wModel.db) (.ok (.obj [("collection", .str "custom-orders"),
      ("limit", .num 2), ("skip", .num 1)])) =
      (.obj [("documents", .arr [wDocs.get ⟨1, by decide⟩,
        wDocs.get ⟨2, by decide⟩])], 200) ∧
    find (.ok wModel.db) (.ok (.obj [("collection", .str "custom-orders"),
      ("limit", .num 2), ("skip", .num 1), ("sort", .str "name")])) =
      (.obj [("documents", .arr (((wModel.sortFn (.str "name")
        (wModel.colls "custom-orders")).drop 1).take 2))], 200) := by
  refine ⟨by decide, rfl, ?_, ?_⟩
  · exact (C3_find_skip_limit wModel "custom-orders" (by decide)).1
  · exact (C3_find_skip_limit wModel "custom-orders" (by decide)).2
      (.str "name") rfl

/-- Claim C4: for every handler and every request outcome, any exception
raised inside the handler body (reading the body, extracting fields, or the
database call — all of which feed the `...E` computation) is caught at the
handler boundary and converted to a JSON object carrying the error string,
with status 500 (503 with an `error` field for `/health`); the handlers are
total, so no exception ever propagates past them. -/
theorem C4_handler_error_boundary (gdb : Except String Database)
    (body : Except String JVal) (dbName : String) :
    (∀ e, get_categoriesE gdb = .error e →
      get_categories gdb = (.obj [("error", .str e)], 500)) ∧
    (∀ e, find_oneE gdb body = .error e →
      find_one gdb body = (.obj [("error", .str e)], 500)) ∧
    (∀ e, findE gdb body = .error e →
      find gdb body = (.obj [("error", .str e)], 500)) ∧
    (∀ e, aggregateE gdb body = .error e →
      aggregate gdb body = (.obj [("error", .str e)], 500)) ∧
    (∀ e, countE gdb body = .error e →
      count gdb body = (.obj [("error", .str e)], 500)) ∧
    (∀ e, (do let db ← gdb; db.command_ping : Except String Unit) = .error e →
      health gdb dbName = (.obj [("status", .str "unhealthy"),
        ("api", .str "running"), ("database", .str "disconnected"),
        ("error", .str e)], 503)) := by
  refine ⟨?_, ?_, ?_, ?_, ?_, ?_⟩ <;> intro e h
  · simp [get_categories, catchResp, h]
  · simp [find_one, catchResp, h]
  · simp [find, catchResp, h]
  · simp [aggregate, catchResp, h]
  · simp [count, catchResp, h]
  · simp [health, h]

/-- Witness for C4: a failed `get_db` is converted to an error body by every
handler. -/
theorem C4_witness :
    get_categoriesE (.error "boom") = .error "boom" ∧
    get_categories (.error "boom") = (.obj [("error", .str "boom")], 500) ∧
    find_oneE (.error "boom") (.ok (.obj [])) = .error "boom" ∧
    find_one (.error "boom") (.ok (.obj [])) =
      (.obj [("error", .str "boom")], 500) ∧
    findE (.error "boom") (.ok (.obj [])) = .error "boom" ∧
    find (.error "boom") (.ok (.obj [])) =
      (.obj [("error", .str "boom")], 500) ∧
    aggregateE (.error "boom") (.ok (.obj [])) = .error "boom" ∧
    aggregate (.error "boom") (.ok (.obj [])) =
      (.obj [("error", .str "boom")], 500) ∧
    countE (.error "boom") (.ok (.obj [])) = .error "boom" ∧
    count (.error "boom") (.ok (.obj [])) =
      (.obj [("error", .str "boom")], 500) ∧
    health (.error "boom") "tlb_kitchen_website" =
      (.obj [("status", .str "unhealthy"), ("api", .str "running"),
        ("database", .str "disconnected"), ("error", .str "boom")], 503) := by
  have H := C4_handler_error_boundary (.error "boom") (.ok (.obj []))
    "tlb_kitchen_website"
  exact ⟨rfl, H.1 "boom" rfl, rfl, H.2.1 "boom" rfl, rfl, H.2.2.1 "boom" rfl,
    rfl, H.2.2.2.1 "boom" rfl, rfl, H.2.2.2.2.1 "boom" rfl,
    H.2.2.2.2.2 "boom" rfl⟩

/-- The configuration failure message `get_db` raises for a given bad URI
value: the missing-variable message when the variable is falsy, otherwise
the placeholder message. -/
def config_error_msg (uri : Option String) : String :=
  if uriFalsy uri then msg_uri_missing else msg_uri_placeholder

/-- Claim C5: with the connection string absent (or empty) or still the
placeholder template, every database-touching route returns a non-2xx
status carrying the configuration error message, the cached handle stays
unset, and (the handlers being total functions) the process does not
crash. -/
theorem C5_config_error_routes (uri : Option String)
    (connect : Except String Database) (body : Except String JVal)
    (dbName : String)
    (h : uriFalsy uri = true ∨ uri = some placeholder_uri) :
    (get_db uri connect none).1 = .error (config_error_msg uri) ∧
    (get_db uri connect none).2 = none ∧
    get_categories (get_db uri connect none).1 =
      (.obj [("error", .str (config_error_msg uri))], 500) ∧
    find_one (get_db uri connect none).1 body =
      (.obj [("error", .str (config_error_msg uri))], 500) ∧
    find (get_db uri connect none).1 body =
      (.obj [("error", .str (config_error_msg uri))], 500) ∧
    aggregate (get_db uri connect none).1 body =
      (.obj [("error", .str (config_error_msg uri))], 500) ∧
    count (get_db uri connect none).1 body =
      (.obj [("error", .str (config_error_msg uri))], 500) ∧
    health (get_db uri connect none).1 dbName =
      (.obj [("status", .str "unhealthy"), ("api", .str "running"),
        ("database", .str "disconnected"),
        ("error", .str (config_error_msg uri))], 503) := by
  have hg : get_db uri connect none = (.error (config_error_msg uri), none) := by
    rcases h with h | h
    · simp [get_db, h, config_error_msg]
    · subst h
      have hf : uriFalsy (some placeholder_uri) = false := by decide
      simp [get_db, hf, config_error_msg]
  refine ⟨by rw [hg], by rw [hg], ?_, ?_, ?_, ?_, ?_, ?_⟩ <;> rw [hg] <;> rfl

/-- Witness for C5: the connection string is absent (`none`). -/
theorem C5_witness :
    (uriFalsy none = true ∨ (none : Option String) = some placeholder_uri) ∧
    ((get_db none (.ok wModel.db) none).1 =
        .error (config_error_msg none) ∧
      (get_db none (.ok wModel.db) none).2 = none ∧
      get_categories (get_db none (.ok wModel.db) none).1 =
        (.obj [("error", .str (config_error_msg none))], 500) ∧
      find_one (get_db none (.ok wModel.db) none).1 (.ok (.obj [])) =
        (.obj [("error", .str (config_error_msg none))], 500) ∧
      find (get_db none (.ok wModel.db) none).1 (.ok (.obj [])) =
        (.obj [("error", .str (config_error_msg none))], 500) ∧
      aggregate (get_db none (.ok wModel.db) none).1 (.ok (.obj [])) =
        (.obj [("error", .str (config_error_msg none))], 500) ∧
      count (get_db none (.ok wModel.db) none).1 (.ok (.obj [])) =
        (.obj [("error", .str (config_error_msg none))], 500) ∧
      health (get_db none (.ok wModel.db) none).1 "tlb_kitchen_website" =
        (.obj [("status", .str "unhealthy"), ("api", .str "running"),
          ("database", .str "disconnected"),
          ("error", .str (config_error_msg none))], 503)) :=
  ⟨Or.inl rfl,
    C5_config_error_routes none (.ok wModel.db) (.ok (.obj []))
      "tlb_kitchen_website" (Or.inl rfl)⟩

/-- Claim C6: after a successful initialization the handle is cached: every
later `get_db` call returns the very same handle without touching the
connection/probe procedure (`connect` is arbitrary, including failing), a
whole request run against a cached handle leaves the cache unchanged no
matter what the driver call returns, a full initialization failure leaves
the handle unset, and from that unset state a later call retries and caches
on success. -/
theorem C6_connection_cached (uri : Option String)
    (connect : Except String Database) (db : Database)
    (body : Except String JVal) :
    (get_db uri connect (some db) = (.ok db, some db)) ∧
    (app_find_one uri connect (some db) body =
      (find_one (.ok db) body, some db)) ∧
    (app_aggregate uri connect (some db) body =
      (aggregate (.ok db) body, some db)) ∧
    (∀ e, connect = .error e → uriFalsy uri = false →
      uri ≠ some placeholder_uri →
      get_db uri connect none =
        (.error ("Failed to connect to MongoDB: " ++ e), none)) ∧
    (uriFalsy uri = false → uri ≠ some placeholder_uri →
      get_db uri (.ok db) none = (.ok db, some db)) := by
  refine ⟨rfl, rfl, rfl, ?_, ?_⟩
  · intro e he hf hp
    simp [get_db, hf, hp, he]
  · intro hf hp
    simp [get_db, hf, hp]

/-- Witness for C6: a cached handle survives a failing connection procedure
and a failed initialization leaves the cache empty until a successful
retry. -/
theorem C6_witness :
    uriFalsy (some "mongodb://localhost:27017") = false ∧
    some "mongodb://localhost:27017" ≠ some placeholder_uri ∧
    get_db (some "mongodb://localhost:27017") (.error "connection refused")
        (some wModel.db) = (.ok wModel.db, some wModel.db) ∧
    get_db (some "mongodb://localhost:27017") (.error "connection refused")
        none =
      (.error ("Failed to connect to MongoDB: " ++ "connection refused"),
        none) ∧
    get_db (some "mongodb://localhost:27017") (.ok wModel.db) none =
      (.ok wModel.db, some wModel.db) := by
  have H := C6_connection_cached (some "mongodb://localhost:27017")
    (.error "connection refused") wModel.db (.ok (.obj []))
  have H2 := C6_connection_cached (some "mongodb://localhost:27017")
    (.ok wModel.db) wModel.db (.ok (.obj []))
  exact ⟨by decide, by decide, H.1,
    H.2.2.2.1 "connection refused" rfl (by decide) (by decide),
    H2.2.2.2.2 (by decide) (by decide)⟩

/-- Claim C7: `/health` reflects database reachability: a failed handle
acquisition or a failed ping yields the unhealthy/disconnected report with
the underlying error and status 503; a successful ping yields the
healthy/connected report with the database name and status 200. -/
theorem C7_health_reachability (db : Database) (dbName : String) :
    (∀ e, db.command_ping = .error e →
      health (.ok db) dbName = (.obj [("status", .str "unhealthy"),
        ("api", .str "running"), ("database", .str "disconnected"),
        ("error", .str e)], 503)) ∧
    (db.command_ping = .ok () →
      health (.ok db) dbName = (.obj [("status", .str "healthy"),
        ("api", .str "running"), ("database", .str "connected"),
        ("database_name", .str dbName)], 200)) ∧
    (∀ e, health (.error e) dbName = (.obj [("status", .str "unhealthy"),
      ("api", .str "running"), ("database", .str "disconnected"),
      ("error", .str e)], 503)) := by
  refine ⟨?_, ?_, ?_⟩
  · intro e h
    simp [health, ebind_ok, ebind_err, h]
  · intro h
    simp [health, ebind_ok, ebind_err, h]
  · intro e
    simp [health, ebind_ok, ebind_err]

/-- A handle whose liveness probe fails. -/
def wDbDown : Database := { wModel.db with command_ping := .error "no reachable servers" }

/-- Witness for C7: unreachable and reachable sample handles. -/
theorem C7_witness :
    wDbDown.command_ping = .error "no reachable servers" ∧
    health (.ok wDbDown) "tlb_kitchen_website" =
      (.obj [("status", .str "unhealthy"), ("api", .str "running"),
        ("database", .str "disconnected"),
        ("error", .str "no reachable servers")], 503) ∧
    wModel.db.command_ping = .ok () ∧
    health (.ok wModel.db) "tlb_kitchen_website" =
      (.obj [("status", .str "healthy"), ("api", .str "running"),
        ("database", .str "connected"),
        ("database_name", .str "tlb_kitchen_website")], 200) := by
  have H := C7_health_reachability wDbDown "tlb_kitchen_website"
  have H2 := C7_health_reachability wModel.db "tlb_kitchen_website"
  exact ⟨rfl, H.1 "no reachable servers" rfl, rfl, H2.2.1 rfl⟩

/-- Claim C8: `/api/findOne` with a (well-formed) filter matching zero
documents of the target collection returns `document: null` with
status 404 — never a 500. -/
theorem C8_findOne_no_match (m : MongoModel) (coll : String) (filter : JVal)
    (hsup : filterSupported filter = true)
    (hzero : (m.colls coll).filter (fun d => docMatches d filter) = []) :
    find_one (.ok m.db) (.ok (.obj [("collection", .str coll),
      ("filter", filter)])) = (.obj [("document", .null)], 404) := by
  simp [find_one, find_oneE, ebind_ok, epure_eq, emap_ok, dictGet, lookupKey,
    asStr, MongoModel.db, MongoModel.findDocs, hsup, hzero, jTruthy, catchResp]

/-- Witness for C8: a filter no sample document satisfies. -/
theorem C8_witness :
    filterSupported (.obj [("name", .str "Nope")]) = true ∧
    (wModel.colls "custom-orders").filter
      (fun d => docMatches d (.obj [("name", .str "Nope")])) = [] ∧
    find_one (.ok wModel.db) (.ok (.obj [("collection", .str "custom-orders"),
      ("filter", .obj [("name", .str "Nope")])])) =
      (.obj [("document", .null)], 404) :=
  ⟨rfl, rfl,
    C8_findOne_no_match wModel "custom-orders" (.obj [("name", .str "Nope")])
      rfl rfl⟩

/-- Claim C9: `/api/count` returns the number of documents of the target
collection matching the filter with status 200; with the filter field
absent (defaulted to the empty filter) it returns the total document
count. -/
theorem C9_count_matching (m : MongoModel) (coll : String) (filter : JVal)
    (hsup : filterSupported filter = true) :
    (count (.ok m.db) (.ok (.obj [("collection", .str coll),
      ("filter", filter)])) =
      (.obj [("count", .num (Int.ofNat (((m.colls coll).filter
        (fun d => docMatches d filter)).length)))], 200)) ∧
    (count (.ok m.db) (.ok (.obj [("collection", .str coll)])) =
      (.obj [("count", .num (Int.ofNat ((m.colls coll).length)))], 200)) := by
  constructor
  · simp [count, countE, ebind_ok, epure_eq, emap_ok, dictGet, lookupKey,
      asStr, MongoModel.db, MongoModel.findDocs, hsup, catchResp]
  · simp [count, countE, ebind_ok, epure_eq, emap_ok, dictGet, lookupKey,
      asStr, MongoModel.db, MongoModel.findDocs, filterSupported,
      filter_docMatches_empty, catchResp]

/-- Witness for C9: a never-matching filter gives count 0 with 200; the
defaulted empty filter gives the total count of the sample collection. -/
theorem C9_witness :
    filterSupported (.obj [("name", .str "Nope")]) = true ∧
    count (.ok wModel.db) (.ok (.obj [("collection", .str "custom-orders"),
      ("filter", .obj [("name", .str "Nope")])])) =
      (.obj [("count", .num 0)], 200) ∧
    count (.ok wModel.db) (.ok (.obj [("collection", .str "custom-orders")])) =
      (.obj [("count", .num 4)], 200) := by
  have H := C9_count_matching wModel "custom-orders"
    (.obj [("name", .str "Nope")]) rfl
  exact ⟨rfl, H.1, H.2⟩

/-- Claim C10: when the driver's find-one call returns a matched document
that is falsy (the empty document), both `/api/findOne` and
`/api/categories` report it as not found: `document: null` with 404. -/
theorem C10_falsy_document_not_found (db : Database) (coll : String)
    (filter : JVal)
    (h1 : db.find_one coll filter = .ok (.obj []))
    (h2 : db.find_one "custom-orders" (.obj [("spec_id", .str "categories")]) =
      .ok (.obj [])) :
    find_one (.ok db) (.ok (.obj [("collection", .str coll),
      ("filter", filter)])) = (.obj [("document", .null)], 404) ∧
    get_categories (.ok db) = (.obj [("document", .null)], 404) := by
  constructor
  · simp [find_one, find_oneE, ebind_ok, epure_eq, dictGet, lookupKey, asStr,
      h1, jTruthy, catchResp]
  · simp [get_categories, get_categoriesE, ebind_ok, epure_eq, h2, jTruthy,
      catchResp]

/-- A handle whose find-one always yields the empty (falsy) document. -/
def wDbEmptyDoc : Database :=
  { wModel.db with find_one := fun _ _ => .ok (.obj []) }

/-- Witness for C10: the empty-document handle. -/
theorem C10_witness :
    wDbEmptyDoc.find_one "custom-orders" (.obj []) = .ok (.obj []) ∧
    wDbEmptyDoc.find_one "custom-orders"
      (.obj [("spec_id", .str "categories")]) = .ok (.obj []) ∧
    find_one (.ok wDbEmptyDoc) (.ok (.obj [("collection",
      .str "custom-orders"), ("filter", .obj [])])) =
      (.obj [("document", .null)], 404) ∧
    get_categories (.ok wDbEmptyDoc) = (.obj [("document", .null)], 404) := by
  have H := C10_falsy_document_not_found wDbEmptyDoc "custom-orders"
    (.obj []) rfl rfl
  exact ⟨rfl, rfl, H.1, H.2⟩
